import Mathlib

/-!
Verification development for the Regression Auto-Remediation core:
a shallow embedding of `src/models/issue_classifier.py` and
`src/models/solution_recommender.py`, with theorems settling the
specification claims about classification, recommendation, feedback
recording and knowledge-base persistence.

Modelling conventions:
- Python floats are modelled as exact rationals (`ℚ`); the constants
  0.7, 0.3, 0.5, 0.2, 0.1, 0.05, 0.8 become 7/10, 3/10, 1/2, 1/5,
  1/10, 1/20, 4/5.
- `datetime` values are modelled as natural-number timestamps (days);
  `(now - last_applied).days` becomes truncated subtraction on `Nat`.
- External library calls (the TF-IDF vectorizer and cosine similarity,
  the sklearn estimators and splitters) are parameters of the embedding:
  `recommend_solutions` receives the fitted cosine-similarity function
  `sim : String → String → ℚ`, and `train_model` receives a `TrainEnv`
  record of split/fit/predict functions. Everything the repository's own
  code computes around those calls is embedded directly.
- Python dicts keyed by id are insertion-ordered association lists.
- Raised exceptions become `Except` error values; functions that mutate
  `self` take and return explicit state.
-/

/-- Categories of V93K regression issues (`IssueCategory` enum).
The member SYNTAX_ERR carries the enum value "syntax_error". -/
inductive IssueCategory where
  | COMPILATION_ERROR
  | SYNTAX_ERR
  | LINKING_ERROR
  | BUILD_FAILURE
  | TIMEOUT
  | RESOURCE_ERROR
  | RUNTIME_ERROR
  | INITIALIZATION_ERROR
  | CONTACT_FAILURE
  | MEASUREMENT_ERROR
  | CALIBRATION_ERROR
  | DEVICE_ERROR
  | CONFIG_ERROR
  | PARAMETER_ERROR
  | ENVIRONMENT_ERROR
  | FILE_ERROR
  | DATA_CORRUPTION
  | PERMISSION_ERROR
  | UNKNOWN
  | OTHER
deriving DecidableEq, Repr

/-- String value of each enum member (the `.value` attribute). -/
def IssueCategory.value : IssueCategory → String
  | .COMPILATION_ERROR => "compilation_error"
  | .SYNTAX_ERR => "syntax_error"
  | .LINKING_ERROR => "linking_error"
  | .BUILD_FAILURE => "build_failure"
  | .TIMEOUT => "timeout"
  | .RESOURCE_ERROR => "resource_error"
  | .RUNTIME_ERROR => "runtime_error"
  | .INITIALIZATION_ERROR => "initialization_error"
  | .CONTACT_FAILURE => "contact_failure"
  | .MEASUREMENT_ERROR => "measurement_error"
  | .CALIBRATION_ERROR => "calibration_error"
  | .DEVICE_ERROR => "device_error"
  | .CONFIG_ERROR => "config_error"
  | .PARAMETER_ERROR => "parameter_error"
  | .ENVIRONMENT_ERROR => "environment_error"
  | .FILE_ERROR => "file_error"
  | .DATA_CORRUPTION => "data_corruption"
  | .PERMISSION_ERROR => "permission_error"
  | .UNKNOWN => "unknown"
  | .OTHER => "other"

/-- Inverse of `IssueCategory.value`: the `IssueCategory(string)` enum
constructor, which raises `ValueError` (here: `none`) on an unknown value. -/
def IssueCategory.ofValue (s : String) : Option IssueCategory :=
  if s = "compilation_error" then some .COMPILATION_ERROR
  else if s = "syntax_error" then some .SYNTAX_ERR
  else if s = "linking_error" then some .LINKING_ERROR
  else if s = "build_failure" then some .BUILD_FAILURE
  else if s = "timeout" then some .TIMEOUT
  else if s = "resource_error" then some .RESOURCE_ERROR
  else if s = "runtime_error" then some .RUNTIME_ERROR
  else if s = "initialization_error" then some .INITIALIZATION_ERROR
  else if s = "contact_failure" then some .CONTACT_FAILURE
  else if s = "measurement_error" then some .MEASUREMENT_ERROR
  else if s = "calibration_error" then some .CALIBRATION_ERROR
  else if s = "device_error" then some .DEVICE_ERROR
  else if s = "config_error" then some .CONFIG_ERROR
  else if s = "parameter_error" then some .PARAMETER_ERROR
  else if s = "environment_error" then some .ENVIRONMENT_ERROR
  else if s = "file_error" then some .FILE_ERROR
  else if s = "data_corruption" then some .DATA_CORRUPTION
  else if s = "permission_error" then some .PERMISSION_ERROR
  else if s = "unknown" then some .UNKNOWN
  else if s = "other" then some .OTHER
  else none

/-- Result of issue classification (`ClassificationResult`). -/
structure ClassificationResult where
  category : IssueCategory
  confidence : ℚ
  explanation : String
  features_used : List String
  alternative_categories : List (IssueCategory × ℚ)
deriving DecidableEq, Repr

/-- Check that pattern `p` matches at the head of `t` (character-wise). -/
def leadMatch : List Char → List Char → Bool
  | [], _ => true
  | _ :: _, [] => false
  | a :: as, b :: bs => a == b && leadMatch as bs

/-- Check that pattern `p` occurs contiguously somewhere in `t`
(the Python substring test `p in t`). -/
def containsSub : List Char → List Char → Bool
  | p, [] => leadMatch p []
  | p, c :: ts => leadMatch p (c :: ts) || containsSub p (ts)

/-- Python `pat in text` on strings. -/
def strContains (text pat : String) : Bool :=
  containsSub pat.data text.data

/-- Lower-casing as used by `error_message.lower()`. -/
def lowerStr (s : String) : String :=
  String.mk (s.data.map Char.toLower)

/-- Keyword patterns for rule-based classification fallback
(`_build_keyword_patterns`), in declaration order. -/
def keyword_patterns : List (IssueCategory × List String) :=
  [ (.COMPILATION_ERROR,
      ["compilation error", "compile error", "compilation failed",
       "compiler error", "build error", "make error"]),
    (.SYNTAX_ERR,
      ["syntax error", "parse error", "unexpected token",
       "missing semicolon", "undeclared identifier"]),
    (.LINKING_ERROR,
      ["link error", "linking failed", "undefined reference",
       "cannot find symbol", "linker error"]),
    (.TIMEOUT,
      ["timeout", "time out", "timed out", "execution timeout",
       "test timeout", "connection timeout"]),
    (.CONTACT_FAILURE,
      ["contact failure", "contact error", "pin contact",
       "contact resistance", "open contact", "short contact"]),
    (.MEASUREMENT_ERROR,
      ["measurement error", "measurement failed", "invalid measurement",
       "measurement timeout", "measurement overflow"]),
    (.CALIBRATION_ERROR,
      ["calibration error", "calibration failed", "cal error",
       "calibration timeout", "calibration drift"]),
    (.DEVICE_ERROR,
      ["device error", "device not found", "device failure",
       "device timeout", "device communication error"]),
    (.RESOURCE_ERROR,
      ["resource error", "out of memory", "memory error",
       "disk space", "resource not available"]),
    (.FILE_ERROR,
      ["file not found", "file error", "cannot open file",
       "file permission", "file corrupted"]),
    (.PERMISSION_ERROR,
      ["permission denied", "access denied", "insufficient privileges",
       "permission error", "authorization failed"]) ]

/-- Keywords of one category that occur in the lowered message. -/
def keywordMatches (message_lower : String) (kws : List String) : List String :=
  kws.filter (fun kw => strContains message_lower kw)

/-- The `category_scores` dict of `_rule_based_classify`: categories with at
least one keyword match, paired with the match count, in table order. -/
def categoryScores (message_lower : String) : List (IssueCategory × Nat) :=
  (keyword_patterns.map
      (fun p => (p.1, (keywordMatches message_lower p.2).length))).filter
    (fun p => 0 < p.2)

/-- The `matched_keywords` list of `_rule_based_classify`, in table order. -/
def matchedKeywords (message_lower : String) : List String :=
  keyword_patterns.flatMap (fun p => keywordMatches message_lower p.2)

/-- Python `max(items, key = score)` over a nonempty association list:
the first element attaining the maximal score (updates only on a strictly
greater score). -/
def argmaxFirst : List (IssueCategory × Nat) → Option (IssueCategory × Nat)
  | [] => none
  | x :: xs => some (xs.foldl (fun best y => if best.2 < y.2 then y else best) x)

/-- Comma-separated join, as `", ".join(xs)`. -/
def joinComma : List String → String
  | [] => ""
  | [x] => x
  | x :: xs => x ++ ", " ++ joinComma xs

/-- Rule-based classification over keyword tables
(`IssueClassifier._rule_based_classify`). -/
def rule_based_classify (error_message : String) : ClassificationResult :=
  let message_lower := lowerStr error_message
  let category_scores := categoryScores message_lower
  let matched_keywords := matchedKeywords message_lower
  match argmaxFirst category_scores with
  | none =>
      { category := .UNKNOWN, confidence := 1/10,
        explanation := "No matching patterns found",
        features_used := [], alternative_categories := [] }
  | some (top_category, max_score) =>
      let confidence := min (4/5 : ℚ) ((max_score : ℚ) / 3)
      let sorted_categories :=
        category_scores.mergeSort (fun a b => decide (b.2 ≤ a.2))
      let alternatives :=
        ((sorted_categories.drop 1).take 3).map
          (fun p => (p.1, min (4/5 : ℚ) ((p.2 : ℚ) / 3)))
      { category := top_category, confidence := confidence,
        explanation := "Rule-based classification found " ++ toString max_score
          ++ " keyword matches: " ++ joinComma (matched_keywords.take 3),
        features_used := matched_keywords.take 5,
        alternative_categories := alternatives }

/-- Python `str.strip()`: drop leading and trailing whitespace. -/
def pyStrip (s : String) : String :=
  String.mk
    (((s.data.dropWhile Char.isWhitespace).reverse.dropWhile
        Char.isWhitespace).reverse)

/-- Classify one issue (`IssueClassifier.classify_issue`): empty message short
circuit, then the ML path when trained (its sklearn outcome is the `ml`
parameter, `none` when `_ml_classify` raises), else the rule-based fallback. -/
def classify_issue (is_trained : Bool) (ml : Option ClassificationResult)
    (error_message : String) : ClassificationResult :=
  if pyStrip error_message = "" then
    { category := .UNKNOWN, confidence := 0,
      explanation := "Empty error message",
      features_used := [], alternative_categories := [] }
  else if is_trained then
    match ml with
    | some r => r
    | none => rule_based_classify error_message
  else rule_based_classify error_message

/-- A solution for a V93K regression issue (`Solution` dataclass). -/
structure Solution where
  solution_id : String
  solution_type : String
  description : String
  code_changes : List (List (String × String)) := []
  config_changes : List (List (String × String)) := []
  parameter_changes : List (List (String × String)) := []
  category : Option IssueCategory := none
  module_applicability : List String := []
  baseline_versions : List String := []
  success_count : Nat := 0
  failure_count : Nat := 0
  confidence_score : ℚ := 0
  created_date : Nat := 0
  last_applied : Option Nat := none
  last_updated : Nat := 0
deriving DecidableEq, Repr

/-- Success rate of a solution (`Solution.get_success_rate`). -/
def Solution.get_success_rate (s : Solution) : ℚ :=
  let total := s.success_count + s.failure_count
  if 0 < total then (s.success_count : ℚ) / (total : ℚ) else 0

/-- Update success metrics after solution application
(`Solution.update_success_metrics`); `now` is the current timestamp. -/
def Solution.update_success_metrics (s : Solution) (success : Bool)
    (now : Nat) : Solution :=
  let s :=
    if success then { s with success_count := s.success_count + 1 }
    else { s with failure_count := s.failure_count + 1 }
  let s := { s with last_applied := some now, last_updated := now }
  let success_rate := s.get_success_rate
  let application_count : Nat := s.success_count + s.failure_count
  let confidence_from_success := success_rate
  let confidence_from_volume := min (1 : ℚ) ((application_count : ℚ) / 10)
  { s with confidence_score :=
      (7/10) * confidence_from_success + (3/10) * confidence_from_volume }

/-- Filter context passed to recommendation calls: the two keys of the
Python `context` dict that the recommender reads. -/
structure Ctx where
  module_name : Option String := none
  baseline_version : Option String := none
deriving DecidableEq, Repr

/-- One entry of the solution application history log. -/
structure HistoryEntry where
  solution_id : String
  error_message : String
  success : Bool
  timestamp : Nat
  context : Ctx
deriving DecidableEq, Repr

/-- Mutable state of `SolutionRecommender`: the knowledge base (an
insertion-ordered id-to-Solution dict), the history log, and the
vectorizer staleness flag. -/
structure SolutionRecommender where
  solutions : List (String × Solution) := []
  solution_history : List HistoryEntry := []
  is_fitted : Bool := false
deriving DecidableEq, Repr

/-- Add a solution to the knowledge base (`add_solution`): dict assignment
keyed by `solution.solution_id`, then mark for re-fitting. -/
def add_solution (st : SolutionRecommender) (s : Solution) : SolutionRecommender :=
  if (st.solutions.lookup s.solution_id).isSome then
    { st with
      solutions := st.solutions.map
        (fun p => if p.1 == s.solution_id then (p.1, s) else p),
      is_fitted := false }
  else
    { st with solutions := st.solutions ++ [(s.solution_id, s)], is_fitted := false }

/-- Record the result of applying a solution
(`record_solution_application`): unknown id is a logged no-op; otherwise
update the solution metrics, append a history entry, mark for re-fitting. -/
def record_solution_application (st : SolutionRecommender)
    (solution_id error_message : String) (success : Bool)
    (context : Option Ctx) (now : Nat) : SolutionRecommender :=
  match st.solutions.lookup solution_id with
  | none => st
  | some sol =>
      let sol := sol.update_success_metrics success now
      let history_entry : HistoryEntry :=
        { solution_id := solution_id, error_message := error_message,
          success := success, timestamp := now,
          context := context.getD {} }
      { st with
        solutions := st.solutions.map
          (fun p => if p.1 == solution_id then (p.1, sol) else p),
        solution_history := st.solution_history ++ [history_entry],
        is_fitted := false }

/-- Candidate filter of `_get_candidate_solutions`, as a Boolean predicate:
category unset or equal; module allow-list empty or containing the context
module; baseline allow-list empty or containing the context baseline. -/
def candidatePred (s : Solution) (issue_category : IssueCategory)
    (context : Option Ctx) : Bool :=
  (match s.category with
   | none => true
   | some c => c == issue_category)
  && (match context with
      | none => true
      | some ctx =>
        (match ctx.module_name with
         | none => true
         | some m =>
            s.module_applicability.isEmpty || s.module_applicability.contains m)
        && (match ctx.baseline_version with
            | none => true
            | some b =>
               s.baseline_versions.isEmpty || s.baseline_versions.contains b))

/-- Candidate solutions for a query (`_get_candidate_solutions`), iterating
the knowledge base in insertion order. -/
def get_candidate_solutions (st : SolutionRecommender)
    (issue_category : IssueCategory) (context : Option Ctx) : List Solution :=
  (st.solutions.map Prod.snd).filter
    (fun s => candidatePred s issue_category context)

/-- Fit the text vectorizer (`_fit_vectorizer`): the vocabulary itself lives
in the `sim` parameter of `recommend_solutions`; here only the `is_fitted`
flag changes, and only when there is at least one text to fit on. -/
def fit_vectorizer (st : SolutionRecommender) : SolutionRecommender :=
  if st.solutions.isEmpty then st
  else
    let texts := (st.solutions.map (fun p => p.2.description))
      ++ (st.solution_history.map (fun e => e.error_message))
    if texts.isEmpty then st else { st with is_fitted := true }

/-- Per-candidate similarity of `_calculate_similarity_scores` on the
fitted path: cosine similarity `sim`, plus a historical-success boost of
`min(0.2, success_rate * 0.2)` when the solution has at least one success. -/
def similarity_score (sim : String → String → ℚ) (error_message : String)
    (s : Solution) : ℚ :=
  let similarity := sim error_message s.description
  if 0 < s.success_count then
    similarity + min (1/5 : ℚ) (s.get_success_rate * (1/5))
  else similarity

/-- Similarity scores between the error message and candidates
(`_calculate_similarity_scores`). `sim` is the cosine similarity of the
fitted vectorizer; unfitted state yields the default score 0.5. -/
def calculate_similarity_scores (sim : String → String → ℚ)
    (st : SolutionRecommender) (error_message : String)
    (candidates : List Solution) : List (Solution × ℚ) :=
  if !st.is_fitted then candidates.map (fun s => (s, 1/2))
  else candidates.map (fun s => (s, similarity_score sim error_message s))

/-- Per-pair body of `_apply_scoring_factors`: confidence scaling, recency
boost, reliability penalty. -/
def score_adjust (now : Nat) (p : Solution × ℚ) : Solution × ℚ :=
  let s := p.1
  let base_score := p.2
  let final_score := base_score * (1/2 + (1/2) * s.confidence_score)
  let final_score :=
    match s.last_applied with
    | some la =>
        if 0 < s.success_count then
          let days_since_applied : Nat := now - la
          final_score
            + max 0 ((1/10) * ((30 : ℚ) - (days_since_applied : ℚ)) / 30)
        else final_score
    | none => final_score
  let success_rate := s.get_success_rate
  let final_score :=
    if 3 ≤ s.success_count + s.failure_count then
      if success_rate < 1/2 then final_score * (7/10)
      else if success_rate < 7/10 then final_score * (9/10)
      else final_score
    else final_score
  (s, final_score)

/-- Additional scoring factors (`_apply_scoring_factors`). The `context`
parameter is accepted and unused, as in the source. -/
def apply_scoring_factors (now : Nat)
    (scored_solutions : List (Solution × ℚ)) (_context : Option Ctx) :
    List (Solution × ℚ) :=
  scored_solutions.map (score_adjust now)

/-- Overall confidence in the recommendations
(`_calculate_recommendation_confidence`). -/
def calculate_recommendation_confidence
    (top_solutions : List (Solution × ℚ)) : ℚ :=
  match top_solutions with
  | [] => 0
  | t :: rest =>
    let top_score := t.2
    let base_confidence := min 1 top_score
    let base_confidence :=
      match rest with
      | [] => base_confidence
      | u :: _ => base_confidence + min (1/5 : ℚ) (top_score - u.2)
    let availability_factor :=
      max (4/5 : ℚ) (1 - (top_solutions.length : ℚ) * (1/20))
    min 1 (base_confidence * availability_factor)

/-- Space-separated join, as `" ".join(parts)`. -/
def joinSpace : List String → String
  | [] => ""
  | [x] => x
  | x :: xs => x ++ " " ++ joinSpace xs

/-- Human-readable explanation (`_generate_explanation`); numeric
formatting is abstracted to `toString`. -/
def generate_explanation (top_solutions : List (Solution × ℚ))
    (issue_category : IssueCategory) : String :=
  match top_solutions with
  | [] => "No solutions found for " ++ issue_category.value ++ " issues"
  | (top_solution, top_score) :: _ =>
    let explanation_parts :=
      ["Found " ++ toString top_solutions.length
         ++ " potential solutions for " ++ issue_category.value ++ ".",
       "Top recommendation: " ++ top_solution.description
         ++ " (score: " ++ toString top_score ++ ")"]
    let explanation_parts :=
      if 0 < top_solution.success_count then
        explanation_parts ++
          ["This solution has " ++ toString top_solution.get_success_rate
            ++ " success rate (" ++ toString top_solution.success_count
            ++ " successes, " ++ toString top_solution.failure_count
            ++ " failures)"]
      else explanation_parts
    joinSpace explanation_parts

/-- Result of solution recommendation (`RecommendationResult`). -/
structure RecommendationResult where
  solutions : List (Solution × ℚ)
  issue_category : IssueCategory
  recommendation_confidence : ℚ
  explanation : String
  error_message : String
  module_name : Option String := none
  baseline_version : Option String := none
  recommended_at : Nat := 0
  total_solutions_considered : Nat := 0
deriving DecidableEq, Repr

/-- The `context.get(key) if context else None` accessors. -/
def ctxModule (context : Option Ctx) : Option String :=
  context.bind (fun c => c.module_name)

/-- Baseline accessor, matching `ctxModule`. -/
def ctxBaseline (context : Option Ctx) : Option String :=
  context.bind (fun c => c.baseline_version)

/-- Recommend solutions for an issue (`recommend_solutions`): empty
knowledge base and empty candidate set short circuits, lazy refit,
similarity scoring, factor adjustment, stable descending sort by score,
truncation to `max_recommendations`, aggregate confidence, explanation. -/
def recommend_solutions (sim : String → String → ℚ) (now : Nat)
    (st : SolutionRecommender) (error_message : String)
    (issue_category : IssueCategory) (context : Option Ctx)
    (max_recommendations : Nat) : RecommendationResult :=
  if st.solutions.isEmpty then
    { solutions := [], issue_category := issue_category,
      recommendation_confidence := 0,
      explanation := "No solutions available in knowledge base",
      error_message := error_message,
      module_name := ctxModule context, baseline_version := ctxBaseline context,
      recommended_at := now, total_solutions_considered := 0 }
  else
    let st := if !st.is_fitted then fit_vectorizer st else st
    let candidates := get_candidate_solutions st issue_category context
    if candidates.isEmpty then
      { solutions := [], issue_category := issue_category,
        recommendation_confidence := 1/10,
        explanation := "No solutions found for category " ++ issue_category.value,
        error_message := error_message,
        module_name := ctxModule context, baseline_version := ctxBaseline context,
        recommended_at := now,
        total_solutions_considered := st.solutions.length }
    else
      let scored_solutions :=
        calculate_similarity_scores sim st error_message candidates
      let final_scores := apply_scoring_factors now scored_solutions context
      let sorted_scores := final_scores.mergeSort (fun a b => decide (b.2 ≤ a.2))
      let top_solutions := sorted_scores.take max_recommendations
      let recommendation_confidence :=
        calculate_recommendation_confidence top_solutions
      let explanation := generate_explanation top_solutions issue_category
      { solutions := top_solutions, issue_category := issue_category,
        recommendation_confidence := recommendation_confidence,
        explanation := explanation, error_message := error_message,
        module_name := ctxModule context, baseline_version := ctxBaseline context,
        recommended_at := now,
        total_solutions_considered := candidates.length }

/-- Serializable form of one Solution as written by `save_knowledge_base`
(category as its string value, timestamps as encoded values). -/
structure SavedSolution where
  solution_id : String
  solution_type : String
  description : String
  code_changes : List (List (String × String))
  config_changes : List (List (String × String))
  parameter_changes : List (List (String × String))
  category : Option String
  module_applicability : List String
  baseline_versions : List String
  success_count : Nat
  failure_count : Nat
  confidence_score : ℚ
  created_date : Nat
  last_applied : Option Nat
  last_updated : Nat
deriving DecidableEq, Repr

/-- On-disk knowledge-base document: solutions map, history list,
save timestamp. -/
structure SavedKnowledgeBase where
  solutions : List (String × SavedSolution)
  solution_history : List HistoryEntry
  saved_at : Nat
deriving DecidableEq, Repr

/-- Serialize one Solution (the per-solution dict of `save_knowledge_base`). -/
def serializeSolution (s : Solution) : SavedSolution :=
  { solution_id := s.solution_id, solution_type := s.solution_type,
    description := s.description, code_changes := s.code_changes,
    config_changes := s.config_changes, parameter_changes := s.parameter_changes,
    category := s.category.map IssueCategory.value,
    module_applicability := s.module_applicability,
    baseline_versions := s.baseline_versions,
    success_count := s.success_count, failure_count := s.failure_count,
    confidence_score := s.confidence_score, created_date := s.created_date,
    last_applied := s.last_applied, last_updated := s.last_updated }

/-- Save the knowledge base (`save_knowledge_base`). -/
def save_knowledge_base (st : SolutionRecommender) (now : Nat) :
    SavedKnowledgeBase :=
  { solutions := st.solutions.map (fun p => (p.1, serializeSolution p.2)),
    solution_history := st.solution_history,
    saved_at := now }

/-- Reconstruct one Solution from its saved form; `none` models the
`ValueError` that `IssueCategory(value)` raises on an invalid category. -/
def deserializeSolution (d : SavedSolution) : Option Solution :=
  let cat : Option (Option IssueCategory) :=
    match d.category with
    | none => some none
    | some v =>
      match IssueCategory.ofValue v with
      | none => none
      | some c => some (some c)
  cat.map (fun c =>
    { solution_id := d.solution_id, solution_type := d.solution_type,
      description := d.description, code_changes := d.code_changes,
      config_changes := d.config_changes,
      parameter_changes := d.parameter_changes,
      category := c,
      module_applicability := d.module_applicability,
      baseline_versions := d.baseline_versions,
      success_count := d.success_count, failure_count := d.failure_count,
      confidence_score := d.confidence_score, created_date := d.created_date,
      last_applied := d.last_applied, last_updated := d.last_updated })

/-- Load the knowledge base (`load_knowledge_base`): rebuild the solutions
dict (confidence_score taken verbatim from the file), restore the history
log, mark for re-fitting; any reconstruction failure is re-raised. -/
def load_knowledge_base (data : SavedKnowledgeBase) :
    Except String SolutionRecommender :=
  match data.solutions.mapM
      (fun p => (deserializeSolution p.2).map (fun s => (p.1, s))) with
  | none => Except.error "Failed to load knowledge base"
  | some sols =>
      Except.ok
        { solutions := sols, solution_history := data.solution_history,
          is_fitted := false }

/-- Statistics over the knowledge base (`get_statistics`), reduced to the
numeric fields the spec mentions. -/
def get_statistics (st : SolutionRecommender) : Nat × Nat × Nat :=
  let total_solutions := st.solutions.length
  let total_applications :=
    (st.solutions.map (fun p => p.2.success_count + p.2.failure_count)).sum
  let successful_applications :=
    (st.solutions.map (fun p => p.2.success_count)).sum
  (total_solutions, total_applications, successful_applications)

/-- Trained/untrained state of `IssueClassifier` that `train_model`
overwrites: the vectorizer, both ensemble members, the trained flag and
the derived name lists. `V` and `C` stand for the opaque sklearn
vectorizer and estimator states. -/
structure IssueClassifier (V C : Type) where
  vectorizer : V
  classifier : C
  backup_classifier : C
  is_trained : Bool
  training_date : Option Nat
  feature_names : List String
  class_names : List String
deriving DecidableEq, Repr

/-- Outcome of `train_test_split`: the four partitions. -/
structure SplitData where
  X_train : List String
  X_test : List String
  y_train : List String
  y_test : List String
deriving DecidableEq, Repr

/-- Environment of external sklearn operations used by `train_model`:
`stratSplit` is the stratified `train_test_split` (`none` when it raises
`ValueError`), `randSplit` the plain random split; the remaining fields
are the vectorizer fit, the two estimator fits, prediction, probability
prediction, feature-name extraction and `classification_report`. -/
structure TrainEnv (V C : Type) where
  now : Nat
  stratSplit : ℚ → List String → List String → Option SplitData
  randSplit : ℚ → List String → List String → SplitData
  fitTransform : List String → V
  fitRF : V → List String → List String → C
  fitNB : V → List String → List String → C
  predict : C → V → List String → List String
  predictProba : C → V → List String → List (List ℚ)
  featureNamesOut : V → List String
  report : List String → List String → String

/-- Fraction of agreeing positions (`sklearn.metrics.accuracy_score`). -/
def accuracy_score (y_true y_pred : List String) : ℚ :=
  if y_true.length = 0 then 0
  else (((y_true.zip y_pred).countP (fun p => p.1 == p.2) : ℚ) / (y_true.length : ℚ))

/-- First index of the maximal entry of a row (`np.argmax`). -/
def argmaxIdx (row : List ℚ) : Nat :=
  match row with
  | [] => 0
  | x :: xs =>
    (xs.foldl (fun acc y =>
        if acc.2.1 < y then (acc.2.2, y, acc.2.2 + 1)
        else (acc.1, acc.2.1, acc.2.2 + 1))
      ((0, x, 1) : Nat × ℚ × Nat)).1

/-- Metrics dictionary returned by `train_model`; its fields are exactly
the keys of the `results` dict in the source. -/
structure TrainResults where
  training_examples : Nat
  validation_examples : Nat
  rf_accuracy : ℚ
  nb_accuracy : ℚ
  ensemble_accuracy : ℚ
  feature_count : Nat
  class_count : Nat
  training_date : Nat
  classification_report : String
deriving DecidableEq, Repr

/-- Train the classifier (`train_model`): fewer than 10 examples raises
before any state is touched; otherwise split (stratified, falling back to
random on ValueError), fit the vectorizer and both ensemble members,
overwrite the model metadata, and evaluate on the held-out partition.
The returned pair is (state after the call, raised-or-returned value);
`labels.eraseDups` stands for `list(set(labels))`, whose order Python
leaves unspecified. -/
def train_model {V C : Type} (env : TrainEnv V C) (st : IssueClassifier V C)
    (training_data : List (String × IssueCategory)) (validation_split : ℚ) :
    IssueClassifier V C × Except String TrainResults :=
  if training_data.length < 10 then
    (st, Except.error "Need at least 10 training examples")
  else
    let messages := training_data.map Prod.fst
    let labels := training_data.map (fun p => p.2.value)
    let split :=
      match env.stratSplit validation_split messages labels with
      | some s => s
      | none => env.randSplit validation_split messages labels
    let vec := env.fitTransform split.X_train
    let clf := env.fitRF vec split.X_train split.y_train
    let nb := env.fitNB vec split.X_train split.y_train
    let feature_names := env.featureNamesOut vec
    let class_names := labels.eraseDups
    let st' : IssueClassifier V C :=
      { vectorizer := vec, classifier := clf, backup_classifier := nb,
        is_trained := true, training_date := some env.now,
        feature_names := feature_names, class_names := class_names }
    let y_pred_rf := env.predict clf vec split.X_test
    let y_pred_nb := env.predict nb vec split.X_test
    let rf_accuracy := accuracy_score split.y_test y_pred_rf
    let nb_accuracy := accuracy_score split.y_test y_pred_nb
    let rf_proba := env.predictProba clf vec split.X_test
    let nb_proba := env.predictProba nb vec split.X_test
    let ensemble_proba :=
      rf_proba.zipWith
        (fun a b => a.zipWith (fun x y => (7/10) * x + (3/10) * y) b) nb_proba
    let y_pred_ensemble :=
      ensemble_proba.map (fun row => class_names.getD (argmaxIdx row) "")
    let ensemble_accuracy := accuracy_score split.y_test y_pred_ensemble
    (st',
      Except.ok
        { training_examples := training_data.length,
          validation_examples := split.X_test.length,
          rf_accuracy := rf_accuracy, nb_accuracy := nb_accuracy,
          ensemble_accuracy := ensemble_accuracy,
          feature_count := feature_names.length,
          class_count := class_names.length,
          training_date := env.now,
          classification_report := env.report split.y_test y_pred_ensemble })

/-! Concrete instances used by witnesses and counterexamples. -/

/-- Trivial sklearn environment over unit vectorizer/estimator states. -/
def trivEnv : TrainEnv Unit Unit :=
  { now := 0, stratSplit := fun _ _ _ => none,
    randSplit := fun _ _ _ => { X_train := [], X_test := [], y_train := [], y_test := [] },
    fitTransform := fun _ => (), fitRF := fun _ _ _ => (), fitNB := fun _ _ _ => (),
    predict := fun _ _ _ => [], predictProba := fun _ _ _ => [],
    featureNamesOut := fun _ => [], report := fun _ _ => "" }

/-- An untrained classifier state. -/
def ex0Classifier : IssueClassifier Unit Unit :=
  { vectorizer := (), classifier := (), backup_classifier := (),
    is_trained := false, training_date := none,
    feature_names := [], class_names := [] }

/-- A fixed data split used to compare the two split paths. -/
def exSplit : SplitData :=
  { X_train := ["a", "b", "c", "d", "e", "f", "g", "h"],
    X_test := ["i", "j"],
    y_train := ["timeout", "timeout", "timeout", "timeout",
                "timeout", "timeout", "timeout", "timeout"],
    y_test := ["timeout", "timeout"] }

/-- Ten labelled training examples. -/
def exData : List (String × IssueCategory) :=
  [("a", .TIMEOUT), ("b", .TIMEOUT), ("c", .TIMEOUT), ("d", .TIMEOUT),
   ("e", .TIMEOUT), ("f", .TIMEOUT), ("g", .TIMEOUT), ("h", .TIMEOUT),
   ("i", .TIMEOUT), ("j", .TIMEOUT)]

/-- Environment whose stratified split succeeds with `exSplit`. -/
def envStrat : TrainEnv Unit Unit :=
  { trivEnv with stratSplit := fun _ _ _ => some exSplit }

/-- Environment whose stratified split raises, falling back to a random
split that produces the same partition `exSplit`. -/
def envFallback : TrainEnv Unit Unit :=
  { trivEnv with
    stratSplit := fun _ _ _ => none,
    randSplit := fun _ _ _ => exSplit }

/-! Claim C9. -/

/-- Claim C9: recording an outcome against a solution id that is not in the
knowledge base returns without raising and leaves the recommender state
fully unchanged: no solution is modified and no history entry is appended
(the unknown reference is only logged). -/
theorem record_unknown_id_noop (st : SolutionRecommender)
    (solution_id error_message : String) (success : Bool)
    (context : Option Ctx) (now : Nat)
    (h : st.solutions.lookup solution_id = none) :
    record_solution_application st solution_id error_message success context now
      = st := by
  unfold record_solution_application
  rw [h]

/-- A small knowledge base with one recorded solution. -/
def exSolR : Solution :=
  { solution_id := "s1", solution_type := "code_fix", description := "retry" }

/-- Recommender state holding only `exSolR`. -/
def exKBR : SolutionRecommender :=
  { solutions := [("s1", exSolR)], solution_history := [], is_fitted := true }

/-- Witness for C9 at a concrete one-solution knowledge base and an id
not present in it. -/
theorem record_unknown_id_noop_witness :
    exKBR.solutions.lookup "missing" = none
    ∧ record_solution_application exKBR "missing" "msg" true none 7 = exKBR :=
  ⟨rfl, record_unknown_id_noop _ _ _ _ _ _ rfl⟩

/-! Claim C6. -/

/-- Claim C6: `train_model` on fewer than 10 examples raises a training
error to the caller, and the whole classifier state survives the failed
call unchanged: trained flag, vectorizer, both ensemble members, feature
names and class names retain their previous values. -/
theorem train_model_insufficient_examples {V C : Type} (env : TrainEnv V C)
    (st : IssueClassifier V C) (training_data : List (String × IssueCategory))
    (validation_split : ℚ) (h : training_data.length < 10) :
    train_model env st training_data validation_split
        = (st, Except.error "Need at least 10 training examples")
    ∧ (train_model env st training_data validation_split).1.is_trained
        = st.is_trained
    ∧ (train_model env st training_data validation_split).1.vectorizer
        = st.vectorizer
    ∧ (train_model env st training_data validation_split).1.classifier
        = st.classifier
    ∧ (train_model env st training_data validation_split).1.backup_classifier
        = st.backup_classifier
    ∧ (train_model env st training_data validation_split).1.feature_names
        = st.feature_names
    ∧ (train_model env st training_data validation_split).1.class_names
        = st.class_names := by
  have he : train_model env st training_data validation_split
      = (st, Except.error "Need at least 10 training examples") := by
    unfold train_model
    rw [if_pos h]
  exact ⟨he, by rw [he], by rw [he], by rw [he], by rw [he], by rw [he], by rw [he]⟩

/-- Witness for C6 on a concrete environment, classifier state and an
empty training list. -/
theorem train_model_insufficient_examples_witness :
    ([] : List (String × IssueCategory)).length < 10
    ∧ train_model trivEnv ex0Classifier [] (1/5)
        = (ex0Classifier, Except.error "Need at least 10 training examples") := by
  refine ⟨by decide, ?_⟩
  exact (train_model_insufficient_examples trivEnv ex0Classifier [] (1/5)
    (by decide)).1

/-! Claim C7. -/

/-- Helper: `train_model` depends on the chosen split only through its
value, so a successful stratified split and a random fallback yielding
the same partition produce identical results. -/
theorem train_model_split_agnostic {V C : Type} (env : TrainEnv V C)
    (st : IssueClassifier V C) (training_data : List (String × IssueCategory))
    (validation_split : ℚ) (S : SplitData) :
    train_model { env with stratSplit := fun _ _ _ => some S }
        st training_data validation_split
      = train_model
          { env with
            stratSplit := fun _ _ _ => none,
            randSplit := fun _ _ _ => S }
          st training_data validation_split := by
  unfold train_model
  by_cases h : training_data.length < 10 <;> simp [h]

/-- Counterexample to C7 as stated: a training run in which the stratified
split fails and the random split is used (under `envFallback`) returns
exactly the same metrics value as a run whose stratified split succeeds
with the same partition (under `envStrat`) — so the fallback is not
observable in the returned metrics dictionary. -/
theorem split_fallback_invisible_example :
    (train_model envStrat ex0Classifier exData (1/5)).2
        = (train_model envFallback ex0Classifier exData (1/5)).2
    ∧ envStrat.stratSplit (1/5) (exData.map Prod.fst)
        (exData.map (fun p => p.2.value)) = some exSplit
    ∧ envFallback.stratSplit (1/5) (exData.map Prod.fst)
        (exData.map (fun p => p.2.value)) = none :=
  ⟨congrArg Prod.snd
      (train_model_split_agnostic trivEnv ex0Classifier exData (1/5) exSplit),
    rfl, rfl⟩

/-- Claim C7 amended: the stratified-to-random fallback is NOT observable
in the value returned by `train_model` — whenever the random fallback
produces the same partition that a successful stratified split would have
produced, the returned state and metrics are identical; the fallback is
reported only through logging. -/
theorem split_fallback_not_observable {V C : Type} (env : TrainEnv V C)
    (st : IssueClassifier V C) (training_data : List (String × IssueCategory))
    (validation_split : ℚ) (S : SplitData) :
    train_model { env with stratSplit := fun _ _ _ => some S }
        st training_data validation_split
      = train_model
          { env with
            stratSplit := fun _ _ _ => none,
            randSplit := fun _ _ _ => S }
          st training_data validation_split :=
  train_model_split_agnostic env st training_data validation_split S

/-! Claim C3. -/

/-- Helper: the enum value string maps back to the member it came from. -/
theorem ofValue_value (c : IssueCategory) :
    IssueCategory.ofValue c.value = some c := by
  cases c <;> rfl

/-- Helper: deserializing a serialized Solution restores it exactly,
confidence score and counters included. -/
theorem deserializeSolution_serializeSolution (s : Solution) :
    deserializeSolution (serializeSolution s) = some s := by
  obtain ⟨sid, sty, d, cc, cg, pc, cat, ma, bv, sc, fc, cf, cd, la, lu⟩ := s
  cases cat with
  | none => rfl
  | some c => cases c <;> rfl

/-- Helper: reconstructing every serialized entry of the saved map
succeeds and restores the original association list. -/
theorem mapM_deserialize (l : List (String × Solution)) :
    (l.map (fun p => (p.1, serializeSolution p.2))).mapM
        (fun p => (deserializeSolution p.2).map (fun s => (p.1, s)))
      = some l := by
  induction l with
  | nil => rfl
  | cons x xs ih =>
    simp only [List.map_cons, List.mapM_cons, deserializeSolution_serializeSolution,
      Option.map_some', ih, Option.pure_def, Option.bind_some, Option.bind_eq_bind]
    rfl

/-- Claim C3: `save_knowledge_base` followed by `load_knowledge_base`
succeeds and reproduces an equivalent Solution set — same ids in the same
order, same success and failure counts per Solution, confidence_score
taken verbatim from the saved data — and a history log of the same
length (in fact the same log). -/
theorem save_load_round_trip (st : SolutionRecommender) (now : Nat) :
    ∃ st', load_knowledge_base (save_knowledge_base st now) = Except.ok st'
      ∧ st'.solutions.map
            (fun p => (p.1, p.2.success_count, p.2.failure_count,
              p.2.confidence_score))
          = st.solutions.map
            (fun p => (p.1, p.2.success_count, p.2.failure_count,
              p.2.confidence_score))
      ∧ st'.solution_history.length = st.solution_history.length := by
  refine ⟨{ solutions := st.solutions,
            solution_history := st.solution_history, is_fitted := false },
    ?_, rfl, rfl⟩
  unfold load_knowledge_base save_knowledge_base
  rw [mapM_deserialize]

/-! Claim C2. -/

/-- Confidence update rule of `update_success_metrics` as a function of
the post-update counters:
`0.7 * success_rate + 0.3 * min(1, total_applications / 10)`. -/
def confFormula (success_count failure_count : Nat) : ℚ :=
  let total := success_count + failure_count
  (7/10) * (if 0 < total then (success_count : ℚ) / (total : ℚ) else 0)
    + (3/10) * min 1 ((total : ℚ) / 10)

/-- Helper: the three fields `update_success_metrics` touches on a
successful application. -/
theorem update_success_metrics_true (s : Solution) (now : Nat) :
    (s.update_success_metrics true now).success_count = s.success_count + 1
    ∧ (s.update_success_metrics true now).failure_count = s.failure_count
    ∧ (s.update_success_metrics true now).confidence_score
        = confFormula (s.success_count + 1) s.failure_count := by
  refine ⟨rfl, rfl, ?_⟩
  rfl

/-- Helper: the update rule is monotone in a recorded success. -/
theorem confFormula_succ_mono (sc fc : Nat) :
    confFormula sc fc ≤ confFormula (sc + 1) fc := by
  unfold confFormula
  have hrate : (if 0 < sc + fc then (sc : ℚ) / ((sc : ℚ) + (fc : ℚ)) else 0)
      ≤ ((sc : ℚ) + 1) / ((sc : ℚ) + 1 + (fc : ℚ)) := by
    by_cases h : 0 < sc + fc
    · rw [if_pos h]
      have hpos : (0 : ℚ) < (sc : ℚ) + (fc : ℚ) := by
        exact_mod_cast Nat.cast_pos.mpr h
      have hpos' : (0 : ℚ) < (sc : ℚ) + 1 + (fc : ℚ) := by positivity
      rw [div_le_div_iff₀ hpos hpos']
      nlinarith [Nat.cast_nonneg (α := ℚ) sc, Nat.cast_nonneg (α := ℚ) fc]
    · rw [if_neg h]
      positivity
  have hvol : min (1 : ℚ) (((sc : ℚ) + (fc : ℚ)) / 10)
      ≤ min (1 : ℚ) (((sc : ℚ) + 1 + (fc : ℚ)) / 10) := by
    apply min_le_min le_rfl
    apply div_le_div_of_nonneg_right _ (by norm_num)
    linarith
  have h1 : ((sc + fc : Nat) : ℚ) = (sc : ℚ) + (fc : ℚ) := by push_cast; ring
  have h2 : (((sc + 1) + fc : Nat) : ℚ) = (sc : ℚ) + 1 + (fc : ℚ) := by
    push_cast; ring
  have h3 : (((sc + 1) : Nat) : ℚ) = (sc : ℚ) + 1 := by push_cast; ring
  simp only [h1, h2, h3]
  have h4 : 0 < (sc + 1) + fc := by omega
  rw [if_pos h4]
  have hr : (if 0 < sc + fc then (sc : ℚ) / ((sc : ℚ) + (fc : ℚ)) else 0)
      ≤ ((sc : ℚ) + 1) / ((sc : ℚ) + 1 + (fc : ℚ)) := hrate
  nlinarith [hr, hvol]

/-- Helper: the dict-style in-place update of one key is visible to a
subsequent lookup of that key. -/
theorem lookup_map_const_update {β : Type} (l : List (String × β)) (id : String)
    (c b : β) (h : l.lookup id = some b) :
    (l.map (fun p => if p.1 == id then (p.1, c) else p)).lookup id = some c := by
  induction l with
  | nil => simp at h
  | cons x xs ih =>
    obtain ⟨k, v⟩ := x
    simp only [List.map_cons]
    by_cases hk : k = id
    · subst hk
      rw [if_pos (beq_self_eq_true k)]
      exact List.lookup_cons_self
    · have hid : (id == k) = false := beq_eq_false_iff_ne.mpr (fun hh => hk hh.symm)
      have hbeq : ¬ ((k == id) = true) := by
        simp [hk]
      rw [if_neg hbeq, List.lookup_cons, hid]
      apply ih
      rw [List.lookup_cons, hid] at h
      exact h

/-- Claim C2: recording a successful outcome on an existing solution id
increases that Solution's success_count by exactly 1, leaves its
failure_count unchanged, and recomputes
`confidence_score = 0.7 * success_rate + 0.3 * min(1, total/10)` over the
post-increment counters; under this rule the recomputed confidence is
non-decreasing (so in particular whenever the success rate increased). -/
theorem record_success_updates_metrics (st : SolutionRecommender)
    (solution_id error_message : String) (context : Option Ctx) (now : Nat)
    (sol : Solution) (h : st.solutions.lookup solution_id = some sol) :
    ∃ sol',
      (record_solution_application st solution_id error_message true context
          now).solutions.lookup solution_id = some sol'
      ∧ sol'.success_count = sol.success_count + 1
      ∧ sol'.failure_count = sol.failure_count
      ∧ sol'.confidence_score
          = confFormula (sol.success_count + 1) sol.failure_count
      ∧ confFormula sol.success_count sol.failure_count
          ≤ sol'.confidence_score := by
  refine ⟨sol.update_success_metrics true now, ?_,
    (update_success_metrics_true sol now).1,
    (update_success_metrics_true sol now).2.1,
    (update_success_metrics_true sol now).2.2, ?_⟩
  · unfold record_solution_application
    rw [h]
    exact lookup_map_const_update st.solutions solution_id _ sol h
  · rw [(update_success_metrics_true sol now).2.2]
    exact confFormula_succ_mono sol.success_count sol.failure_count

/-- Witness for C2 at the concrete knowledge base `exKBR` and its
solution id "s1". -/
theorem record_success_updates_metrics_witness :
    exKBR.solutions.lookup "s1" = some exSolR
    ∧ ∃ sol',
        (record_solution_application exKBR "s1" "msg" true none
            7).solutions.lookup "s1" = some sol'
        ∧ sol'.success_count = exSolR.success_count + 1
        ∧ sol'.failure_count = exSolR.failure_count
        ∧ sol'.confidence_score
            = confFormula (exSolR.success_count + 1) exSolR.failure_count
        ∧ confFormula exSolR.success_count exSolR.failure_count
            ≤ sol'.confidence_score :=
  ⟨rfl, record_success_updates_metrics exKBR "s1" "msg" none 7 exSolR rfl⟩

/-! Helper lemmas about the recommendation pipeline. -/

/-- Helper: scoring factors never change the Solution component. -/
theorem score_adjust_fst (now : Nat) (p : Solution × ℚ) :
    (score_adjust now p).1 = p.1 := rfl

/-- Helper: `fit_vectorizer` changes only the fitted flag. -/
theorem fit_vectorizer_solutions (st : SolutionRecommender) :
    (fit_vectorizer st).solutions = st.solutions := by
  unfold fit_vectorizer
  split
  · rfl
  · dsimp only
    split <;> rfl

/-- Helper: the candidate set does not depend on the fitted flag, so the
lazy refit inside `recommend_solutions` leaves it unchanged. -/
theorem get_candidates_fit (st : SolutionRecommender) (cat : IssueCategory)
    (ctx : Option Ctx) :
    get_candidate_solutions (if !st.is_fitted then fit_vectorizer st else st)
        cat ctx
      = get_candidate_solutions st cat ctx := by
  unfold get_candidate_solutions
  split
  · rw [fit_vectorizer_solutions]
  · rfl

/-- Helper: any pair produced by the scoring pipeline comes from a
candidate, its score being the factor adjustment of either the default
0.5 (unfitted) or the boosted similarity of that candidate. -/
theorem mem_apply_calc (sim : String → String → ℚ) (now : Nat)
    (st : SolutionRecommender) (msg : String) (cands : List Solution)
    (ctx : Option Ctx) (s : Solution) (q : ℚ)
    (h : (s, q) ∈ apply_scoring_factors now
        (calculate_similarity_scores sim st msg cands) ctx) :
    s ∈ cands ∧ ∃ b : ℚ, (b = 1/2 ∨ b = similarity_score sim msg s)
        ∧ (s, q) = score_adjust now (s, b) := by
  unfold apply_scoring_factors calculate_similarity_scores at h
  by_cases hf : st.is_fitted = true
  · rw [if_neg (by simp [hf])] at h
    rw [List.map_map] at h
    rcases List.mem_map.mp h with ⟨c, hc, he⟩
    simp only [Function.comp] at he
    have hc1 : c = s := by
      have h1 := congrArg Prod.fst he
      simpa [score_adjust_fst] using h1
    subst hc1
    exact ⟨hc, similarity_score sim msg c, Or.inr rfl, he.symm⟩
  · rw [if_pos (by simp [hf])] at h
    rw [List.map_map] at h
    rcases List.mem_map.mp h with ⟨c, hc, he⟩
    simp only [Function.comp] at he
    have hc1 : c = s := by
      have h1 := congrArg Prod.fst he
      simpa [score_adjust_fst] using h1
    subst hc1
    exact ⟨hc, 1/2, Or.inl rfl, he.symm⟩

/-- Helper: any pair in the returned ranked list comes from the candidate
set of the query, its score produced by the scoring pipeline. -/
theorem recommend_solutions_mem (sim : String → String → ℚ) (now : Nat)
    (st : SolutionRecommender) (msg : String) (cat : IssueCategory)
    (ctx : Option Ctx) (maxr : Nat) (s : Solution) (q : ℚ)
    (h : (s, q) ∈ (recommend_solutions sim now st msg cat ctx maxr).solutions) :
    s ∈ get_candidate_solutions st cat ctx
    ∧ ∃ b : ℚ, (b = 1/2 ∨ b = similarity_score sim msg s)
        ∧ (s, q) = score_adjust now (s, b) := by
  unfold recommend_solutions at h
  by_cases h1 : st.solutions.isEmpty = true
  · rw [if_pos h1] at h
    simp at h
  · rw [if_neg h1] at h
    simp only at h
    by_cases h2 : (get_candidate_solutions
        (if !st.is_fitted then fit_vectorizer st else st) cat ctx).isEmpty = true
    · rw [if_pos h2] at h
      simp at h
    · rw [if_neg h2] at h
      have h3 : (s, q) ∈ apply_scoring_factors now
          (calculate_similarity_scores sim
            (if !st.is_fitted then fit_vectorizer st else st) msg
            (get_candidate_solutions
              (if !st.is_fitted then fit_vectorizer st else st) cat ctx)) ctx := by
        have h4 := List.mem_of_mem_take h
        exact List.mem_mergeSort.mp h4
      have h5 := mem_apply_calc sim now
        (if !st.is_fitted then fit_vectorizer st else st) msg _ ctx s q h3
      refine ⟨?_, h5.2⟩
      rw [← get_candidates_fit st cat ctx]
      exact h5.1

/-- Helper: a success rate is never negative. -/
theorem get_success_rate_nonneg (s : Solution) : 0 ≤ s.get_success_rate := by
  unfold Solution.get_success_rate
  dsimp only
  split
  · positivity
  · exact le_refl 0

/-- Helper: a success rate never exceeds one. -/
theorem get_success_rate_le_one (s : Solution) : s.get_success_rate ≤ 1 := by
  unfold Solution.get_success_rate
  dsimp only
  split
  · rename_i h
    rw [div_le_one (by exact_mod_cast h)]
    exact_mod_cast Nat.le_add_right s.success_count s.failure_count
  · norm_num

/-- Helper: on the fitted path, a candidate score before factor adjustment
is the cosine similarity plus a boost in [0, 0.2]. -/
theorem similarity_score_bounds (sim : String → String → ℚ) (msg : String)
    (s : Solution) (h0 : 0 ≤ sim msg s.description)
    (h1 : sim msg s.description ≤ 1) :
    0 ≤ similarity_score sim msg s ∧ similarity_score sim msg s ≤ 6/5 := by
  unfold similarity_score
  dsimp only
  split
  · constructor
    · have hb : 0 ≤ min (1/5 : ℚ) (s.get_success_rate * (1/5)) :=
        le_min (by norm_num)
          (mul_nonneg (get_success_rate_nonneg s) (by norm_num))
      linarith
    · have hb : min (1/5 : ℚ) (s.get_success_rate * (1/5)) ≤ 1/5 :=
        min_le_left _ _
      linarith
  · exact ⟨h0, by linarith⟩

/-- Helper: the factor-adjusted score of a pair whose base score lies in
[0, 1.2] and whose solution has confidence in [0, 1] lies in [0, 1.3]. -/
theorem score_adjust_bounds (now : Nat) (s : Solution) (b : ℚ)
    (hb0 : 0 ≤ b) (hb1 : b ≤ 6/5)
    (hc0 : 0 ≤ s.confidence_score) (hc1 : s.confidence_score ≤ 1) :
    0 ≤ (score_adjust now (s, b)).2 ∧ (score_adjust now (s, b)).2 ≤ 13/10 := by
  unfold score_adjust
  dsimp only
  have hm0 : (0 : ℚ) ≤ 1/2 + (1/2) * s.confidence_score := by linarith
  have hm1 : 1/2 + (1/2) * s.confidence_score ≤ 1 := by linarith
  have h00 : 0 ≤ b * (1/2 + (1/2) * s.confidence_score) :=
    mul_nonneg hb0 hm0
  have h01 : b * (1/2 + (1/2) * s.confidence_score) ≤ 6/5 := by
    nlinarith
  set f0 := b * (1/2 + (1/2) * s.confidence_score) with hf0
  have hmid : ∀ g : ℚ, 0 ≤ g → g ≤ 13/10 →
      0 ≤ (if s.get_success_rate < 1/2 then g * (7/10)
            else if s.get_success_rate < 7/10 then g * (9/10) else g)
      ∧ (if s.get_success_rate < 1/2 then g * (7/10)
            else if s.get_success_rate < 7/10 then g * (9/10) else g) ≤ 13/10 := by
    intro g hg0 hg1
    split
    · constructor <;> nlinarith
    · split
      · constructor <;> nlinarith
      · exact ⟨hg0, hg1⟩
  rcases hla : s.last_applied with _ | la
  · simp only [hla]
    split
    · exact hmid f0 h00 (by linarith)
    · exact ⟨h00, by linarith⟩
  · simp only [hla]
    by_cases hsc : 0 < s.success_count
    · rw [if_pos hsc]
      set rec := max (0 : ℚ)
        ((1/10) * ((30 : ℚ) - ((now - la : Nat) : ℚ)) / 30) with hrec
      have hr0 : 0 ≤ rec := le_max_left _ _
      have hr1 : rec ≤ 1/10 := by
        apply max_le (by norm_num)
        have hd : (0 : ℚ) ≤ ((now - la : Nat) : ℚ) := Nat.cast_nonneg _
        rw [div_le_iff₀ (by norm_num : (0 : ℚ) < 30)]
        nlinarith
      split
      · exact hmid (f0 + rec) (by linarith) (by linarith)
      · exact ⟨by linarith, by linarith⟩
    · rw [if_neg hsc]
      split
      · exact hmid f0 h00 (by linarith)
      · exact ⟨h00, by linarith⟩

/-- Helper: the merge-sorted score list, and hence any prefix of it, is
non-increasing in the score component. -/
theorem merged_take_sorted (l : List (Solution × ℚ)) (n : Nat) :
    ((l.mergeSort (fun a b => decide (b.2 ≤ a.2))).take n).Pairwise
      (fun a b => b.2 ≤ a.2) := by
  have hs := @List.sorted_mergeSort (Solution × ℚ)
      (fun a b => decide (b.2 ≤ a.2))
      (fun a b c hab hbc => by
        simp only [decide_eq_true_eq] at *
        exact le_trans hbc hab)
      (fun a b => by
        simp only [Bool.or_eq_true, decide_eq_true_eq]
        exact le_total b.2 a.2)
      l
  have hs' : (l.mergeSort (fun a b => decide (b.2 ≤ a.2))).Pairwise
      (fun a b => b.2 ≤ a.2) :=
    hs.imp (fun h => of_decide_eq_true h)
  exact List.Pairwise.sublist (List.take_sublist n _) hs'

/-- Helper: the ranked list returned by `recommend_solutions` is sorted
non-increasingly by score. -/
theorem recommend_solutions_sorted (sim : String → String → ℚ) (now : Nat)
    (st : SolutionRecommender) (msg : String) (cat : IssueCategory)
    (ctx : Option Ctx) (maxr : Nat) :
    ((recommend_solutions sim now st msg cat ctx maxr).solutions).Pairwise
      (fun a b => b.2 ≤ a.2) := by
  unfold recommend_solutions
  by_cases h1 : st.solutions.isEmpty = true
  · rw [if_pos h1]
    exact List.Pairwise.nil
  · rw [if_neg h1]
    simp only
    by_cases h2 : (get_candidate_solutions
        (if !st.is_fitted then fit_vectorizer st else st) cat ctx).isEmpty = true
    · rw [if_pos h2]
      exact List.Pairwise.nil
    · rw [if_neg h2]
      exact merged_take_sorted _ _

/-! Claim C1. -/

/-- Helper: unpacking the Boolean candidate predicate into the three
filter conditions. -/
theorem candidatePred_decode (s : Solution) (cat : IssueCategory)
    (ctx : Option Ctx) (h : candidatePred s cat ctx = true) :
    (s.category = none ∨ s.category = some cat)
    ∧ (∀ m, ctxModule ctx = some m →
        s.module_applicability = [] ∨ m ∈ s.module_applicability)
    ∧ (∀ b, ctxBaseline ctx = some b →
        s.baseline_versions = [] ∨ b ∈ s.baseline_versions) := by
  unfold candidatePred at h
  refine ⟨?_, ?_, ?_⟩
  · rcases hc : s.category with _ | c
    · exact Or.inl rfl
    · rw [hc] at h
      simp only [Bool.and_eq_true, beq_iff_eq] at h
      exact Or.inr (by rw [h.1])
  · intro m hm
    rcases hctx : ctx with _ | c
    · simp [ctxModule, hctx] at hm
    · have hm' : c.module_name = some m := by
        simpa [ctxModule, hctx] using hm
      rw [hctx] at h
      simp only [hm', Bool.and_eq_true] at h
      have h2 := h.2.1
      rcases Bool.or_eq_true _ _ |>.mp h2 with he | hc2
      · exact Or.inl (List.isEmpty_iff.mp he)
      · right
        simpa using hc2
  · intro b hb
    rcases hctx : ctx with _ | c
    · simp [ctxBaseline, hctx] at hb
    · have hb' : c.baseline_version = some b := by
        simpa [ctxBaseline, hctx] using hb
      rw [hctx] at h
      simp only [hb', Bool.and_eq_true] at h
      have h2 := h.2.2
      rcases Bool.or_eq_true _ _ |>.mp h2 with he | hc2
      · exact Or.inl (List.isEmpty_iff.mp he)
      · right
        simpa using hc2

/-- Claim C1: every (Solution, score) pair returned by
`recommend_solutions` has survived the candidate filter: its category is
unset or equal to the query category, its module allow-list is empty or
contains the supplied context module, and its baseline-version allow-list
is empty or contains the supplied context baseline. -/
theorem recommend_respects_candidate_filter (sim : String → String → ℚ)
    (now : Nat) (st : SolutionRecommender) (msg : String)
    (cat : IssueCategory) (ctx : Option Ctx) (maxr : Nat)
    (s : Solution) (q : ℚ)
    (h : (s, q) ∈ (recommend_solutions sim now st msg cat ctx maxr).solutions) :
    (s.category = none ∨ s.category = some cat)
    ∧ (∀ m, ctxModule ctx = some m →
        s.module_applicability = [] ∨ m ∈ s.module_applicability)
    ∧ (∀ b, ctxBaseline ctx = some b →
        s.baseline_versions = [] ∨ b ∈ s.baseline_versions) := by
  have hmem := (recommend_solutions_mem sim now st msg cat ctx maxr s q h).1
  have hp : candidatePred s cat ctx = true := by
    unfold get_candidate_solutions at hmem
    exact (List.mem_filter.mp hmem).2
  exact candidatePred_decode s cat ctx hp

/-- Witness instances for C1: a knowledge base with one fully constrained
solution and a matching query context. -/
def exSolC1 : Solution :=
  { solution_id := "c1", solution_type := "config_change",
    description := "adjust timeout limit",
    category := some .TIMEOUT, module_applicability := ["m1"],
    baseline_versions := ["b1"] }

/-- Recommender state holding only `exSolC1`. -/
def exKBC1 : SolutionRecommender :=
  { solutions := [("c1", exSolC1)], solution_history := [], is_fitted := true }

/-- Query context matching the allow-lists of `exSolC1`. -/
def exCtxC1 : Ctx := { module_name := some "m1", baseline_version := some "b1" }

/-- Helper: value of the C1 witness call. -/
theorem exKBC1_solutions_eval :
    (recommend_solutions (fun _ _ => 1/2) 0 exKBC1 "timeout observed"
        IssueCategory.TIMEOUT (some exCtxC1) 5).solutions = [(exSolC1, 1/4)] := by
  simp [recommend_solutions, exKBC1, exSolC1, exCtxC1, get_candidate_solutions,
    candidatePred, calculate_similarity_scores, similarity_score,
    apply_scoring_factors, score_adjust, fit_vectorizer,
    Solution.get_success_rate]
  norm_num

/-- Witness for C1 at a concrete call whose returned list contains the
pair `(exSolC1, 1/4)`. -/
theorem recommend_respects_candidate_filter_witness :
    ((exSolC1, (1/4 : ℚ)) ∈ (recommend_solutions (fun _ _ => 1/2) 0 exKBC1
        "timeout observed" IssueCategory.TIMEOUT (some exCtxC1) 5).solutions)
    ∧ ((exSolC1.category = none ∨ exSolC1.category = some IssueCategory.TIMEOUT)
      ∧ (∀ m, ctxModule (some exCtxC1) = some m →
          exSolC1.module_applicability = [] ∨ m ∈ exSolC1.module_applicability)
      ∧ (∀ b, ctxBaseline (some exCtxC1) = some b →
          exSolC1.baseline_versions = [] ∨ b ∈ exSolC1.baseline_versions)) := by
  have hm : (exSolC1, (1/4 : ℚ)) ∈ (recommend_solutions (fun _ _ => 1/2) 0
      exKBC1 "timeout observed" IssueCategory.TIMEOUT (some exCtxC1) 5).solutions := by
    rw [exKBC1_solutions_eval]
    exact List.mem_singleton.mpr rfl
  exact ⟨hm, recommend_respects_candidate_filter (fun _ _ => 1/2) 0 exKBC1
    "timeout observed" IssueCategory.TIMEOUT (some exCtxC1) 5 exSolC1 (1/4) hm⟩

/-! Claim C4. -/

/-- A highly successful, recently applied solution with full confidence. -/
def exSol4 : Solution :=
  { solution_id := "s1", solution_type := "code_fix", description := "x",
    success_count := 10, failure_count := 0, confidence_score := 1,
    last_applied := some 100 }

/-- Recommender state holding only `exSol4`. -/
def exKB4 : SolutionRecommender :=
  { solutions := [("s1", exSol4)], solution_history := [], is_fitted := true }

/-- Helper: value of the C4 counterexample call — cosine 1 (identical
texts), success boost 0.2, confidence factor 1, recency boost 0.1. -/
theorem exKB4_solutions_eval :
    (recommend_solutions (fun _ _ => 1) 100 exKB4 "x" IssueCategory.TIMEOUT
        none 5).solutions = [(exSol4, 13/10)] := by
  simp [recommend_solutions, exKB4, exSol4, get_candidate_solutions,
    candidatePred, calculate_similarity_scores, similarity_score,
    apply_scoring_factors, score_adjust, fit_vectorizer,
    Solution.get_success_rate]
  norm_num

/-- Counterexample to C4 as stated: at a concrete knowledge base and a
query whose cosine similarity is 1, the single returned score is 1.3, so
returned scores are NOT always within [0, 1] — the historical-success and
recency boosts push them above 1. -/
theorem recommend_score_exceeds_one :
    (recommend_solutions (fun _ _ => 1) 100 exKB4 "x" IssueCategory.TIMEOUT
        none 5).solutions.map Prod.snd = [13/10]
    ∧ ¬ ((13 : ℚ)/10 ≤ 1) := by
  refine ⟨?_, by norm_num⟩
  rw [exKB4_solutions_eval]
  rfl

/-- Claim C4 amended: whenever the cosine similarities are in [0, 1] and
every stored confidence score is in [0, 1], the scores in the ranked list
returned by `recommend_solutions` are monotonically non-increasing from
first to last and lie in [0, 1.3] (rather than [0, 1]: the success boost,
capped at 0.2, and the recency boost, capped at 0.1, can push a score
above 1). -/
theorem recommend_scores_bounded_and_sorted (sim : String → String → ℚ)
    (now : Nat) (st : SolutionRecommender) (msg : String)
    (cat : IssueCategory) (ctx : Option Ctx) (maxr : Nat)
    (hsim : ∀ a b, 0 ≤ sim a b ∧ sim a b ≤ 1)
    (hconf : ∀ p ∈ st.solutions,
      0 ≤ (Prod.snd p).confidence_score ∧ (Prod.snd p).confidence_score ≤ 1) :
    (∀ p ∈ (recommend_solutions sim now st msg cat ctx maxr).solutions,
        0 ≤ p.2 ∧ p.2 ≤ 13/10)
    ∧ ((recommend_solutions sim now st msg cat ctx maxr).solutions).Pairwise
        (fun a b => b.2 ≤ a.2) := by
  refine ⟨?_, recommend_solutions_sorted sim now st msg cat ctx maxr⟩
  intro p hp
  obtain ⟨hs, b, hb, heq⟩ := recommend_solutions_mem sim now st msg cat ctx
    maxr p.1 p.2 (by rw [Prod.mk.eta]; exact hp)
  have hsols : p.1 ∈ st.solutions.map Prod.snd := by
    unfold get_candidate_solutions at hs
    exact (List.mem_filter.mp hs).1
  obtain ⟨pr, hpr, hpe⟩ := List.mem_map.mp hsols
  have hcb := hconf pr hpr
  rw [hpe] at hcb
  have hbb : 0 ≤ b ∧ b ≤ 6/5 := by
    rcases hb with rfl | rfl
    · norm_num
    · exact similarity_score_bounds sim msg p.1
        (hsim msg p.1.description).1 (hsim msg p.1.description).2
  have hq := score_adjust_bounds now p.1 b hbb.1 hbb.2 hcb.1 hcb.2
  have hq2 : p.2 = (score_adjust now (p.1, b)).2 := congrArg Prod.snd heq
  rw [hq2]
  exact hq

/-- Witness for the amended C4 at a concrete call with cosine 1 and a
fully confident solution. -/
theorem recommend_scores_bounded_and_sorted_witness :
    (∀ p ∈ (recommend_solutions (fun _ _ => 1) 100 exKB4 "x"
        IssueCategory.TIMEOUT none 5).solutions, 0 ≤ p.2 ∧ p.2 ≤ 13/10)
    ∧ ((recommend_solutions (fun _ _ => 1) 100 exKB4 "x"
        IssueCategory.TIMEOUT none 5).solutions).Pairwise
        (fun a b => b.2 ≤ a.2) :=
  recommend_scores_bounded_and_sorted (fun _ _ => 1) 100 exKB4 "x"
    IssueCategory.TIMEOUT none 5
    (fun _ _ => by norm_num)
    (fun p hp => by
      have hp1 : p = ("s1", exSol4) := by
        simpa [exKB4] using hp
      rw [hp1]
      exact ⟨by norm_num [exSol4], by norm_num [exSol4]⟩)

/-! Claim C8. -/

/-- A solution whose description is unrelated to the query text. -/
def exSol8 : Solution :=
  { solution_id := "s1", solution_type := "code_fix",
    description := "reseat the probe card" }

/-- Recommender state holding only `exSol8`. -/
def exKB8 : SolutionRecommender :=
  { solutions := [("s1", exSol8)], solution_history := [], is_fitted := false }

/-- Helper: value of the C8 call — the orthogonal candidate is still
returned, with score 0. -/
theorem exKB8_solutions_eval :
    (recommend_solutions (fun _ _ => 0) 0 exKB8 "unrelated query"
        IssueCategory.TIMEOUT none 5).solutions = [(exSol8, 0)] := by
  simp [recommend_solutions, exKB8, exSol8, get_candidate_solutions,
    candidatePred, calculate_similarity_scores, similarity_score,
    apply_scoring_factors, score_adjust, fit_vectorizer,
    Solution.get_success_rate]

/-- Claim C8 evidence: `recommend_solutions` applies no minimum-similarity
threshold at all — with cosine similarity 0 the candidate still comes back
ranked, with score 0, strictly below the 0.1 default `min_similarity` of
the web layer, so no filtering below the threshold happens before (or
after) ranking. -/
theorem recommend_returns_below_threshold :
    (recommend_solutions (fun _ _ => 0) 0 exKB8 "unrelated query"
        IssueCategory.TIMEOUT none 5).solutions.map Prod.snd = [0]
    ∧ (0 : ℚ) < 1/10 := by
  refine ⟨?_, by norm_num⟩
  rw [exKB8_solutions_eval]
  rfl

/-! Claim C10. -/

/-- Helper: the boosted similarity is non-negative whenever the cosine is. -/
theorem similarity_score_nonneg (sim : String → String → ℚ) (msg : String)
    (s : Solution) (h0 : 0 ≤ sim msg s.description) :
    0 ≤ similarity_score sim msg s := by
  unfold similarity_score
  dsimp only
  split
  · have hb : 0 ≤ min (1/5 : ℚ) (s.get_success_rate * (1/5)) :=
      le_min (by norm_num)
        (mul_nonneg (get_success_rate_nonneg s) (by norm_num))
    linarith
  · exact h0

/-- Helper: the factor-adjusted score is non-negative whenever the base
score and the stored confidence are. -/
theorem score_adjust_nonneg (now : Nat) (s : Solution) (b : ℚ)
    (hb0 : 0 ≤ b) (hc0 : 0 ≤ s.confidence_score) :
    0 ≤ (score_adjust now (s, b)).2 := by
  unfold score_adjust
  dsimp only
  have hm0 : (0 : ℚ) ≤ 1/2 + (1/2) * s.confidence_score := by linarith
  have h00 : 0 ≤ b * (1/2 + (1/2) * s.confidence_score) :=
    mul_nonneg hb0 hm0
  set f0 := b * (1/2 + (1/2) * s.confidence_score) with hf0
  have hmid : ∀ g : ℚ, 0 ≤ g →
      0 ≤ (if s.get_success_rate < 1/2 then g * (7/10)
            else if s.get_success_rate < 7/10 then g * (9/10) else g) := by
    intro g hg0
    split
    · nlinarith
    · split
      · nlinarith
      · exact hg0
  rcases hla : s.last_applied with _ | la
  · simp only [hla]
    split
    · exact hmid f0 h00
    · exact h00
  · simp only [hla]
    by_cases hsc : 0 < s.success_count
    · rw [if_pos hsc]
      have hr0 : 0 ≤ max (0 : ℚ)
          ((1/10) * ((30 : ℚ) - ((now - la : Nat) : ℚ)) / 30) :=
        le_max_left _ _
      split
      · exact hmid _ (by linarith)
      · linarith
    · rw [if_neg hsc]
      split
      · exact hmid f0 h00
      · exact h00

/-- Helper: every score in the returned ranked list is non-negative
whenever the cosine function and the stored confidences are. -/
theorem recommend_scores_nonneg (sim : String → String → ℚ) (now : Nat)
    (st : SolutionRecommender) (msg : String) (cat : IssueCategory)
    (ctx : Option Ctx) (maxr : Nat)
    (hsim : ∀ a b, 0 ≤ sim a b)
    (hconf : ∀ p ∈ st.solutions, 0 ≤ (Prod.snd p).confidence_score) :
    ∀ p ∈ (recommend_solutions sim now st msg cat ctx maxr).solutions,
      0 ≤ p.2 := by
  intro p hp
  obtain ⟨hs, b, hb, heq⟩ := recommend_solutions_mem sim now st msg cat ctx
    maxr p.1 p.2 (by rw [Prod.mk.eta]; exact hp)
  have hsols : p.1 ∈ st.solutions.map Prod.snd := by
    unfold get_candidate_solutions at hs
    exact (List.mem_filter.mp hs).1
  obtain ⟨pr, hpr, hpe⟩ := List.mem_map.mp hsols
  have hcb := hconf pr hpr
  rw [hpe] at hcb
  have hb0 : 0 ≤ b := by
    rcases hb with rfl | rfl
    · norm_num
    · exact similarity_score_nonneg sim msg p.1 (hsim msg p.1.description)
  have hq2 : p.2 = (score_adjust now (p.1, b)).2 := congrArg Prod.snd heq
  rw [hq2]
  exact score_adjust_nonneg now p.1 b hb0 hcb

/-- Helper: the aggregate confidence of a non-negative, non-increasingly
sorted score list lies in [0, 1]. -/
theorem calc_rec_conf_bounds (top : List (Solution × ℚ))
    (h0 : ∀ p ∈ top, 0 ≤ p.2)
    (hs : top.Pairwise (fun a b => b.2 ≤ a.2)) :
    0 ≤ calculate_recommendation_confidence top
    ∧ calculate_recommendation_confidence top ≤ 1 := by
  unfold calculate_recommendation_confidence
  cases top with
  | nil => exact ⟨le_refl 0, by norm_num⟩
  | cons t rest =>
    dsimp only
    have ht0 : 0 ≤ t.2 := h0 t (List.mem_cons_self t rest)
    have hav : (0 : ℚ) ≤ max (4/5 : ℚ)
        (1 - ((t :: rest).length : ℚ) * (1/20)) :=
      le_trans (by norm_num) (le_max_left _ _)
    cases rest with
    | nil =>
      dsimp only
      constructor
      · exact le_min (by norm_num)
          (mul_nonneg (le_min (by norm_num) ht0) hav)
      · exact min_le_left _ _
    | cons u rest2 =>
      dsimp only
      have hu : u.2 ≤ t.2 :=
        (List.pairwise_cons.mp hs).1 u (List.mem_cons_self u rest2)
      have hgap : 0 ≤ min (1/5 : ℚ) (t.2 - u.2) :=
        le_min (by norm_num) (by linarith)
      constructor
      · refine le_min (by norm_num) (mul_nonneg ?_ hav)
        have : (0 : ℚ) ≤ min 1 t.2 := le_min (by norm_num) ht0
        linarith
      · exact min_le_left _ _

/-- Helper: over an empty knowledge base the aggregate confidence is 0. -/
theorem recommend_empty_rc (sim : String → String → ℚ) (now : Nat)
    (st : SolutionRecommender) (msg : String) (cat : IssueCategory)
    (ctx : Option Ctx) (maxr : Nat) (h : st.solutions = []) :
    (recommend_solutions sim now st msg cat ctx maxr).recommendation_confidence
      = 0 := by
  unfold recommend_solutions
  rw [if_pos (by simp [h])]

/-- Helper: with a non-empty knowledge base but an empty candidate set the
aggregate confidence is 0.1. -/
theorem recommend_nocand_rc (sim : String → String → ℚ) (now : Nat)
    (st : SolutionRecommender) (msg : String) (cat : IssueCategory)
    (ctx : Option Ctx) (maxr : Nat) (h1 : st.solutions ≠ [])
    (h2 : get_candidate_solutions st cat ctx = []) :
    (recommend_solutions sim now st msg cat ctx maxr).recommendation_confidence
      = 1/10 := by
  unfold recommend_solutions
  rw [if_neg (by simp [h1])]
  simp only
  rw [if_pos (by rw [get_candidates_fit]; simp [h2])]

/-- Helper: in the remaining case the aggregate confidence is the
`calculate_recommendation_confidence` of the returned ranked list. -/
theorem recommend_rc_structure (sim : String → String → ℚ) (now : Nat)
    (st : SolutionRecommender) (msg : String) (cat : IssueCategory)
    (ctx : Option Ctx) (maxr : Nat) :
    (st.solutions.isEmpty = true
      ∧ (recommend_solutions sim now st msg cat ctx maxr).recommendation_confidence = 0)
    ∨ ((get_candidate_solutions st cat ctx).isEmpty = true
      ∧ (recommend_solutions sim now st msg cat ctx maxr).recommendation_confidence = 1/10)
    ∨ ((recommend_solutions sim now st msg cat ctx maxr).recommendation_confidence
        = calculate_recommendation_confidence
            ((recommend_solutions sim now st msg cat ctx maxr).solutions)) := by
  by_cases h1 : st.solutions.isEmpty = true
  · left
    refine ⟨h1, ?_⟩
    unfold recommend_solutions
    rw [if_pos h1]
  · by_cases h2 : (get_candidate_solutions st cat ctx).isEmpty = true
    · right; left
      refine ⟨h2, ?_⟩
      unfold recommend_solutions
      rw [if_neg h1]
      simp only
      rw [if_pos (by rw [get_candidates_fit]; exact h2)]
    · right; right
      unfold recommend_solutions
      rw [if_neg h1]
      simp only
      rw [if_neg (by rw [get_candidates_fit]; exact h2)]

/-- Claim C10: whenever the cosine function and the stored confidence
scores are non-negative, the recommendation_confidence of the returned
result lies in [0, 1] — it is 0.0 when the knowledge base is empty, 0.1
when no candidate matches, and otherwise the min(1, ...)-clamped product
of a non-negative base and the availability factor — even though
individual ranked solution scores can exceed 1.0 after boosts. -/
theorem recommendation_confidence_in_unit_interval (sim : String → String → ℚ)
    (now : Nat) (st : SolutionRecommender) (msg : String)
    (cat : IssueCategory) (ctx : Option Ctx) (maxr : Nat)
    (hsim : ∀ a b, 0 ≤ sim a b)
    (hconf : ∀ p ∈ st.solutions, 0 ≤ (Prod.snd p).confidence_score) :
    (0 ≤ (recommend_solutions sim now st msg cat ctx maxr).recommendation_confidence
      ∧ (recommend_solutions sim now st msg cat ctx maxr).recommendation_confidence ≤ 1)
    ∧ (st.solutions = [] →
        (recommend_solutions sim now st msg cat ctx maxr).recommendation_confidence = 0)
    ∧ (st.solutions ≠ [] → get_candidate_solutions st cat ctx = [] →
        (recommend_solutions sim now st msg cat ctx maxr).recommendation_confidence
          = 1/10) := by
  refine ⟨?_, recommend_empty_rc sim now st msg cat ctx maxr,
    recommend_nocand_rc sim now st msg cat ctx maxr⟩
  rcases recommend_rc_structure sim now st msg cat ctx maxr with
    ⟨_, hrc⟩ | ⟨_, hrc⟩ | hrc
  · rw [hrc]
    exact ⟨le_refl 0, by norm_num⟩
  · rw [hrc]
    norm_num
  · rw [hrc]
    exact calc_rec_conf_bounds _
      (recommend_scores_nonneg sim now st msg cat ctx maxr hsim hconf)
      (recommend_solutions_sorted sim now st msg cat ctx maxr)

/-- Witness for C10 at the concrete knowledge base `exKBR`. -/
theorem recommendation_confidence_in_unit_interval_witness :
    (0 ≤ (recommend_solutions (fun _ _ => 1/2) 0 exKBR "msg"
          IssueCategory.TIMEOUT none 5).recommendation_confidence
      ∧ (recommend_solutions (fun _ _ => 1/2) 0 exKBR "msg"
          IssueCategory.TIMEOUT none 5).recommendation_confidence ≤ 1)
    ∧ (exKBR.solutions = [] →
        (recommend_solutions (fun _ _ => 1/2) 0 exKBR "msg"
          IssueCategory.TIMEOUT none 5).recommendation_confidence = 0)
    ∧ (exKBR.solutions ≠ [] →
        get_candidate_solutions exKBR IssueCategory.TIMEOUT none = [] →
        (recommend_solutions (fun _ _ => 1/2) 0 exKBR "msg"
          IssueCategory.TIMEOUT none 5).recommendation_confidence = 1/10) :=
  recommendation_confidence_in_unit_interval (fun _ _ => 1/2) 0 exKBR "msg"
    IssueCategory.TIMEOUT none 5
    (fun _ _ => by norm_num)
    (fun p hp => by
      have hp1 : p = ("s1", exSolR) := by
        simpa [exKBR] using hp
      rw [hp1]
      norm_num [exSolR])

/-! Claim C5. -/

/-- Helper: the running-maximum fold of Python `max(..., key=...)` keeps
the first element attaining the maximal score. -/
theorem foldl_argmax_spec (xs : List (IssueCategory × Nat))
    (b : IssueCategory × Nat) :
    (xs.foldl (fun best y => if best.2 < y.2 then y else best) b = b
      ∧ ∀ q ∈ xs, q.2 ≤ b.2)
    ∨ ∃ l₁ p l₂, xs = l₁ ++ p :: l₂
        ∧ xs.foldl (fun best y => if best.2 < y.2 then y else best) b = p
        ∧ b.2 < p.2 ∧ (∀ q ∈ l₁, q.2 < p.2) ∧ (∀ q ∈ l₂, q.2 ≤ p.2) := by
  induction xs generalizing b with
  | nil => exact Or.inl ⟨rfl, by simp⟩
  | cons y ys ih =>
    rw [List.foldl_cons]
    by_cases hy : b.2 < y.2
    · rw [if_pos hy]
      rcases ih y with ⟨heq, hall⟩ | ⟨l₁, p, l₂, hsplit, heq, hlt, hl₁, hl₂⟩
      · exact Or.inr ⟨[], y, ys, by simp, heq, hy, by simp, hall⟩
      · refine Or.inr ⟨y :: l₁, p, l₂, by simp [hsplit], heq,
          lt_trans hy hlt, ?_, hl₂⟩
        intro q hq
        rcases List.mem_cons.mp hq with rfl | hq
        · exact hlt
        · exact hl₁ q hq
    · rw [if_neg hy]
      rcases ih b with ⟨heq, hall⟩ | ⟨l₁, p, l₂, hsplit, heq, hlt, hl₁, hl₂⟩
      · refine Or.inl ⟨heq, ?_⟩
        intro q hq
        rcases List.mem_cons.mp hq with rfl | hq
        · exact le_of_not_lt hy
        · exact hall q hq
      · refine Or.inr ⟨y :: l₁, p, l₂, by simp [hsplit], heq, hlt, ?_, hl₂⟩
        intro q hq
        rcases List.mem_cons.mp hq with rfl | hq
        · exact lt_of_le_of_lt (le_of_not_lt hy) hlt
        · exact hl₁ q hq

/-- Helper: the element returned by `argmaxFirst` is the first entry of
the list attaining the maximal score. -/
theorem argmaxFirst_spec (l : List (IssueCategory × Nat))
    (c : IssueCategory) (n : Nat) (h : argmaxFirst l = some (c, n)) :
    ∃ l₁ l₂, l = l₁ ++ (c, n) :: l₂
      ∧ (∀ q ∈ l₁, q.2 < n) ∧ (∀ q ∈ l, q.2 ≤ n) := by
  cases l with
  | nil => simp [argmaxFirst] at h
  | cons x xs =>
    simp only [argmaxFirst, Option.some.injEq] at h
    rcases foldl_argmax_spec xs x with ⟨heq, hall⟩ |
      ⟨l₁, p, l₂, hsplit, heq, hlt, hl₁, hl₂⟩
    · rw [heq] at h
      subst h
      refine ⟨[], xs, by simp, by simp, ?_⟩
      intro q hq
      rcases List.mem_cons.mp hq with rfl | hq
      · exact le_refl _
      · exact hall q hq
    · rw [heq] at h
      subst h
      refine ⟨x :: l₁, l₂, by simp [hsplit], ?_, ?_⟩
      · intro q hq
        rcases List.mem_cons.mp hq with rfl | hq
        · exact hlt
        · exact hl₁ q hq
      · intro q hq
        rcases List.mem_cons.mp hq with rfl | hq
        · exact le_of_lt hlt
        · rw [hsplit] at hq
          rcases List.mem_append.mp hq with hq | hq
          · exact le_of_lt (hl₁ q hq)
          · rcases List.mem_cons.mp hq with rfl | hq
            · exact le_refl _
            · exact hl₂ q hq

/-- Helper: on a message with at least one keyword match, the rule-based
classifier returns the argmax category with confidence
`min(0.8, matches / 3)` and the matched keywords as features. -/
theorem rule_based_classify_match (msg : String) (c : IssueCategory) (n : Nat)
    (h : argmaxFirst (categoryScores (lowerStr msg)) = some (c, n)) :
    (rule_based_classify msg).category = c
    ∧ (rule_based_classify msg).confidence = min (4/5 : ℚ) ((n : ℚ) / 3)
    ∧ (rule_based_classify msg).features_used
        = (matchedKeywords (lowerStr msg)).take 5 := by
  simp only [rule_based_classify]
  rw [h]
  exact ⟨rfl, rfl, rfl⟩

/-- Claim C5: with the classifier untrained, classification of a non-empty
message is by case-insensitive keyword match: whenever some keyword
matches, the returned confidence equals `min(0.8, matches/3)` for the
winning category (hence never exceeds 0.8), and the winning category is
the first-declared category attaining the maximal match count (every
category scores at most the winner, every earlier-declared category
strictly less); in particular, on "Contact failure detected on pin 5" the
result is contact_failure with confidence at most 0.8 and matched keyword
"contact failure". -/
theorem untrained_rule_based_classification (msg : String)
    (h1 : ¬ pyStrip msg = "")
    (h2 : categoryScores (lowerStr msg) ≠ []) :
    ((classify_issue false none msg).confidence ≤ 4/5
      ∧ ∃ n : Nat,
          (classify_issue false none msg).confidence
            = min (4/5 : ℚ) ((n : ℚ) / 3)
          ∧ (∃ l₁ l₂, categoryScores (lowerStr msg)
                = l₁ ++ ((classify_issue false none msg).category, n) :: l₂
              ∧ ∀ q ∈ l₁, q.2 < n)
          ∧ (∀ q ∈ categoryScores (lowerStr msg), q.2 ≤ n))
    ∧ ((classify_issue false none "Contact failure detected on pin 5").category
          = IssueCategory.CONTACT_FAILURE
      ∧ (classify_issue false none
          "Contact failure detected on pin 5").confidence ≤ 4/5
      ∧ "contact failure" ∈ (classify_issue false none
          "Contact failure detected on pin 5").features_used) := by
  have hcl : classify_issue false none msg = rule_based_classify msg := by
    unfold classify_issue
    rw [if_neg h1]
    rfl
  obtain ⟨cn, hcn⟩ :
      ∃ cn, argmaxFirst (categoryScores (lowerStr msg)) = some cn := by
    cases hl : categoryScores (lowerStr msg) with
    | nil => exact absurd hl h2
    | cons x xs =>
      refine ⟨xs.foldl (fun best y => if best.2 < y.2 then y else best) x, ?_⟩
      simp [argmaxFirst]
  obtain ⟨c, n⟩ := cn
  have hrb := rule_based_classify_match msg c n hcn
  obtain ⟨l₁, l₂, hsplit, hlt, hle⟩ := argmaxFirst_spec _ c n hcn
  have h5 : classify_issue false none "Contact failure detected on pin 5"
      = rule_based_classify "Contact failure detected on pin 5" := by
    unfold classify_issue
    rw [if_neg (by decide)]
    rfl
  have h6 := rule_based_classify_match "Contact failure detected on pin 5"
    IssueCategory.CONTACT_FAILURE 1 (by decide)
  refine ⟨⟨?_, n, ?_, ⟨l₁, l₂, ?_, hlt⟩, hle⟩, ?_, ?_, ?_⟩
  · rw [hcl, hrb.2.1]
    exact min_le_left _ _
  · rw [hcl, hrb.2.1]
  · rw [hcl, hrb.1]
    exact hsplit
  · rw [h5, h6.1]
  · rw [h5, h6.2.1]
    exact min_le_left _ _
  · rw [h5, h6.2.2]
    decide

/-- Witness for C5 at the documented scenario input. -/
theorem untrained_rule_based_classification_witness :
    (¬ pyStrip "Contact failure detected on pin 5" = "")
    ∧ (((classify_issue false none "Contact failure detected on pin 5").confidence ≤ 4/5
      ∧ ∃ n : Nat,
          (classify_issue false none "Contact failure detected on pin 5").confidence
            = min (4/5 : ℚ) ((n : ℚ) / 3)
          ∧ (∃ l₁ l₂, categoryScores (lowerStr "Contact failure detected on pin 5")
                = l₁ ++ ((classify_issue false none
                    "Contact failure detected on pin 5").category, n) :: l₂
              ∧ ∀ q ∈ l₁, q.2 < n)
          ∧ (∀ q ∈ categoryScores (lowerStr "Contact failure detected on pin 5"),
              q.2 ≤ n))
      ∧ ((classify_issue false none "Contact failure detected on pin 5").category
            = IssueCategory.CONTACT_FAILURE
        ∧ (classify_issue false none
            "Contact failure detected on pin 5").confidence ≤ 4/5
        ∧ "contact failure" ∈ (classify_issue false none
            "Contact failure detected on pin 5").features_used)) :=
  ⟨by decide, untrained_rule_based_classification
    "Contact failure detected on pin 5" (by decide) (by decide)⟩
